import Mathlib

/-!
Shallow embedding of the voice I/O pipeline: session state machine and
statistics (src/voice/voice_session.py), speech-to-text and text-to-speech
provider fallback chains (src/voice/speech_to_text.py,
src/voice/text_to_speech.py), audio capture (src/audio/capture.py),
playback queue and format detection (src/audio/playback.py), and the
output orchestrator (src/voice/output_manager.py).

Python floats are modelled as rationals, byte strings as lists of
naturals, mutation as explicit state passing, and a raised exception as
an error value returned next to the state the object holds at the moment
of the raise. Wall-clock readings (time.time()) are explicit inputs.
-/

/-- Runtime errors a Python call can surface in the modelled fragment: a
ValueError carrying a message, or a TypeError from calling a method with
the wrong number of arguments. -/
inductive PyError where
  | valueError (msg : String)
  | typeError (msg : String)
deriving DecidableEq, Repr

/-- Performance statistics for the voice session
(src/voice/voice_session.py, dataclass Statistics, lines 27-50). -/
structure Statistics where
  commands_issued_count : Nat := 0
  average_transcription_time_ms : ℚ := 0
  average_playback_start_time_ms : ℚ := 0
  interruptions_count : Nat := 0
deriving DecidableEq, Repr

/-- A fresh Statistics object, all fields at their dataclass defaults. -/
def Statistics.init : Statistics := {}

/-- Statistics.update_transcription_time (voice_session.py lines 36-40):
total = avg * count; count += 1; avg = (total + duration_ms) / count. -/
def Statistics.update_transcription_time (s : Statistics) (duration_ms : ℚ) :
    Statistics :=
  let total := s.average_transcription_time_ms * (s.commands_issued_count : ℚ)
  let newCount := s.commands_issued_count + 1
  { s with
    commands_issued_count := newCount
    average_transcription_time_ms := (total + duration_ms) / (newCount : ℚ) }

/-- Statistics.update_playback_start_time (voice_session.py lines 42-46):
count = max(1, commands_issued_count); total = avg * (count - 1);
avg = (total + duration_ms) / count. Note that commands_issued_count is
not modified by this method. -/
def Statistics.update_playback_start_time (s : Statistics) (duration_ms : ℚ) :
    Statistics :=
  let count := max 1 s.commands_issued_count
  let total := s.average_playback_start_time_ms * ((count : ℚ) - 1)
  { s with
    average_playback_start_time_ms := (total + duration_ms) / (count : ℚ) }

/-- Statistics.increment_interruptions (voice_session.py lines 48-50):
the method body increments the counter. The Python definition declares no
parameter besides self. -/
def Statistics.increment_interruptions (s : Statistics) : Statistics :=
  { s with interruptions_count := s.interruptions_count + 1 }

/-- Number of parameters beyond self that the Python definition of
Statistics.increment_interruptions declares: none. -/
def incrementInterruptionsParamCount : Nat := 0

/-- Python call semantics for stats.increment_interruptions(args...): the
interpreter raises TypeError when the number of supplied arguments does
not match the definition, and otherwise runs the method body. -/
def callIncrementInterruptions (s : Statistics) (args : List Int) :
    Except PyError Statistics :=
  if args.length = incrementInterruptionsParamCount then
    .ok s.increment_interruptions
  else
    .error (.typeError
      "increment_interruptions() takes 1 positional argument but more were given")

/-- Left fold of Statistics.update_playback_start_time over a list of
measurements, in order. -/
def Statistics.playbackFold (s : Statistics) (xs : List ℚ) : Statistics :=
  xs.foldl Statistics.update_playback_start_time s

/-- VoiceSession runtime state (src/voice/voice_session.py, dataclass
VoiceSession, lines 53-94); only the fields the verified operations touch
are modelled (session_id, stream handle and response queue are carried by
the real object but not read by the setters). -/
structure VoiceSession where
  is_listening : Bool := false
  is_playing : Bool := false
  statistics : Statistics := {}
deriving DecidableEq, Repr

/-- VoiceSession.set_listening (voice_session.py lines 70-74): raises
ValueError before any mutation when listening and is_playing, otherwise
assigns the flag. The returned pair is the state the object holds after
the call together with the raised error, if any. -/
def VoiceSession.set_listening (s : VoiceSession) (listening : Bool) :
    VoiceSession × Option PyError :=
  if listening && s.is_playing then
    (s, some (.valueError "Cannot start listening while playing"))
  else
    ({ s with is_listening := listening }, none)

/-- VoiceSession.set_playing (voice_session.py lines 76-80): symmetric
guard against is_listening. -/
def VoiceSession.set_playing (s : VoiceSession) (playing : Bool) :
    VoiceSession × Option PyError :=
  if playing && s.is_listening then
    (s, some (.valueError "Cannot start playing while listening"))
  else
    ({ s with is_playing := playing }, none)

/-- One call of either setter. -/
inductive SessionOp where
  | setListening (b : Bool)
  | setPlaying (b : Bool)
deriving DecidableEq, Repr

/-- Applies one setter call; a raised error leaves the session in the
state it held at the raise, which for these setters is the unchanged
state. -/
def VoiceSession.applyOp (s : VoiceSession) (op : SessionOp) : VoiceSession :=
  match op with
  | .setListening b => (s.set_listening b).1
  | .setPlaying b => (s.set_playing b).1

/-- Runs a sequence of setter calls in order. -/
def VoiceSession.runOps (s : VoiceSession) (ops : List SessionOp) : VoiceSession :=
  ops.foldl VoiceSession.applyOp s

theorem applyOp_mutex (s : VoiceSession) (op : SessionOp)
    (h : ¬(s.is_listening = true ∧ s.is_playing = true)) :
    ¬((s.applyOp op).is_listening = true ∧ (s.applyOp op).is_playing = true) := by
  cases op with
  | setListening b =>
    cases b with
    | false => simp [VoiceSession.applyOp, VoiceSession.set_listening]
    | true =>
      cases hp : s.is_playing with
      | false => simp [VoiceSession.applyOp, VoiceSession.set_listening, hp]
      | true => simpa [VoiceSession.applyOp, VoiceSession.set_listening, hp] using h
  | setPlaying b =>
    cases b with
    | false => simp [VoiceSession.applyOp, VoiceSession.set_playing]
    | true =>
      cases hl : s.is_listening with
      | false => simp [VoiceSession.applyOp, VoiceSession.set_playing, hl]
      | true => simpa [VoiceSession.applyOp, VoiceSession.set_playing, hl] using h

theorem runOps_mutex (ops : List SessionOp) :
    ∀ s : VoiceSession, ¬(s.is_listening = true ∧ s.is_playing = true) →
      ¬((s.runOps ops).is_listening = true ∧ (s.runOps ops).is_playing = true) := by
  induction ops with
  | nil => intro s h; simpa [VoiceSession.runOps] using h
  | cons op rest ih =>
    intro s h
    have h1 := applyOp_mutex s op h
    simpa [VoiceSession.runOps] using ih (s.applyOp op) h1

/-- C1: while is_playing is true and is_listening false, set_listening
true raises and leaves both flags unchanged; symmetrically, set_playing
true while is_listening is true raises and leaves the session unchanged;
and no sequence of set_listening / set_playing calls starting from a
state where not both flags hold can ever make both flags true. -/
theorem voice_session_mutual_exclusion :
    (∀ s : VoiceSession, s.is_playing = true → s.is_listening = false →
      s.set_listening true
        = (s, some (.valueError "Cannot start listening while playing"))) ∧
    (∀ s : VoiceSession, s.is_listening = true →
      s.set_playing true
        = (s, some (.valueError "Cannot start playing while listening"))) ∧
    (∀ s : VoiceSession, ¬(s.is_listening = true ∧ s.is_playing = true) →
      ∀ ops : List SessionOp,
        ¬((s.runOps ops).is_listening = true ∧ (s.runOps ops).is_playing = true)) := by
  refine ⟨?_, ?_, ?_⟩
  · intro s hp _
    simp [VoiceSession.set_listening, hp]
  · intro s hl
    simp [VoiceSession.set_playing, hl]
  · intro s h ops
    exact runOps_mutex ops s h

/-- Witness for C1 at concrete sessions. -/
theorem voice_session_mutual_exclusion_witness :
    (({ is_playing := true : VoiceSession }).set_listening true
      = ({ is_playing := true : VoiceSession },
         some (PyError.valueError "Cannot start listening while playing"))) ∧
    (({ is_listening := true : VoiceSession }).set_playing true
      = ({ is_listening := true : VoiceSession },
         some (PyError.valueError "Cannot start playing while listening"))) ∧
    ¬((VoiceSession.runOps {} [.setListening true, .setPlaying true]).is_listening = true ∧
      (VoiceSession.runOps {} [.setListening true, .setPlaying true]).is_playing = true) :=
  ⟨voice_session_mutual_exclusion.1 { is_playing := true } rfl rfl,
   voice_session_mutual_exclusion.2.1 { is_listening := true } rfl,
   voice_session_mutual_exclusion.2.2 {} (by decide)
     [.setListening true, .setPlaying true]⟩

/-- C8: feeding 100, 200, 300 to update_transcription_time on a fresh
Statistics yields the running averages 100, 150, 200 and a final
commands_issued_count of 3, following the incremental-mean rule. -/
theorem transcription_mean_100_200_300 :
    (Statistics.init.update_transcription_time 100).average_transcription_time_ms
        = 100 ∧
    ((Statistics.init.update_transcription_time 100).update_transcription_time 200).average_transcription_time_ms
        = 150 ∧
    (((Statistics.init.update_transcription_time 100).update_transcription_time 200).update_transcription_time 300).average_transcription_time_ms
        = 200 ∧
    (((Statistics.init.update_transcription_time 100).update_transcription_time 200).update_transcription_time 300).commands_issued_count
        = 3 := by
  refine ⟨?_, ?_, ?_, rfl⟩ <;>
    norm_num [Statistics.init, Statistics.update_transcription_time]

/-- C4 counterexample: on a fresh Statistics with no interleaved
transcription updates, the playback-start measurements 100 then 200 leave
the average at 200, not at the arithmetic mean 150 required by the
claimed incremental-mean rule. -/
theorem playback_start_mean_counterexample :
    (Statistics.playbackFold Statistics.init [100, 200]).average_playback_start_time_ms
        = 200 ∧
    ((100 : ℚ) + 200) / 2 = 150 ∧
    (200 : ℚ) ≠ 150 := by
  refine ⟨?_, by norm_num, by norm_num⟩
  norm_num [Statistics.init, Statistics.playbackFold,
    Statistics.update_playback_start_time]

theorem update_playback_fresh (s : Statistics) (x : ℚ)
    (h : s.commands_issued_count = 0) :
    (s.update_playback_start_time x).average_playback_start_time_ms = x ∧
    (s.update_playback_start_time x).commands_issued_count = 0 := by
  constructor
  · norm_num [Statistics.update_playback_start_time, h]
  · simpa [Statistics.update_playback_start_time] using h

theorem playbackFold_fresh (xs : List ℚ) :
    ∀ (x : ℚ) (s : Statistics), s.commands_issued_count = 0 →
      (Statistics.playbackFold s (xs ++ [x])).commands_issued_count = 0 ∧
      (Statistics.playbackFold s (xs ++ [x])).average_playback_start_time_ms = x := by
  induction xs with
  | nil =>
    intro x s h
    have hx := update_playback_fresh s x h
    exact ⟨hx.2, hx.1⟩
  | cons y ys ih =>
    intro x s h
    have hy := update_playback_fresh s y h
    have hr := ih x (s.update_playback_start_time y) hy.2
    simpa [Statistics.playbackFold] using hr

/-- C4 amended: on a fresh Statistics with no interleaved transcription
updates, commands_issued_count stays 0, so every call of
update_playback_start_time uses count = max(1, 0) = 1 and overwrites the
average with the newest measurement: after x1..xn the average equals xn,
not the arithmetic mean. -/
theorem playback_start_fresh_last_measurement (xs : List ℚ) (x : ℚ) :
    (Statistics.playbackFold Statistics.init (xs ++ [x])).average_playback_start_time_ms
        = x ∧
    (Statistics.playbackFold Statistics.init (xs ++ [x])).commands_issued_count = 0 := by
  have h := playbackFold_fresh xs x Statistics.init rfl
  exact ⟨h.2, h.1⟩

/-- The STT provider enum (src/voice/speech_to_text.py, SttProvider). -/
inductive SttProvider where
  | webSpeechApi
  | whisperApi
deriving DecidableEq, Repr

/-- Outcome of the underlying provider helper call inside
SpeechToText.transcribe: transcribe_with_web_speech_api and
transcribe_with_whisper_api either return text or raise
SttUnclearAudioError, SttTimeoutError, SttNetworkError or a plain
SttError. The helpers wrap network calls, so the outcome is an input of
the model. -/
inductive SttOutcome where
  | success (text : String)
  | unclearAudio (msg : String)
  | timeout (msg : String)
  | network (msg : String)
  | otherError (msg : String)
deriving DecidableEq, Repr

/-- Error values SpeechToText.transcribe can raise. The constructor
allFailed models the final SttError whose message embeds the kept
last_error (speech_to_text.py lines 252-256). -/
inductive SttErrorVal where
  | sttError (msg : String)
  | sttTimeout (msg : String)
  | sttNetwork (msg : String)
  | sttUnclearAudio (msg : String)
  | allFailed (last : Option SttErrorVal)

/-- The result of one provider helper call, as the try block sees it. -/
def SttOutcome.run : SttOutcome → Except SttErrorVal String
  | .success t => .ok t
  | .unclearAudio m => .error (.sttUnclearAudio m)
  | .timeout m => .error (.sttTimeout m)
  | .network m => .error (.sttNetwork m)
  | .otherError m => .error (.sttError m)

/-- Whether a raised error matches the first except clause
(except SttUnclearAudioError: raise). -/
def SttErrorVal.isUnclear : SttErrorVal → Bool
  | .sttUnclearAudio _ => true
  | _ => false

/-- Whether the outcome is one of the transient failures the spec names
(network or timeout). -/
def SttOutcome.isTransientFailure : SttOutcome → Bool
  | .timeout _ => true
  | .network _ => true
  | _ => false

/-- One provider in the ordered chain, paired with the outcome its
helper call would produce on the given audio input. -/
structure SttProviderRun where
  provider : SttProvider
  outcome : SttOutcome
deriving DecidableEq, Repr

/-- The error a provider run contributes as last_error, none on
success. -/
def SttProviderRun.errorOf (p : SttProviderRun) : Option SttErrorVal :=
  match p.outcome.run with
  | .ok _ => none
  | .error e => some e

/-- The for-loop of SpeechToText.transcribe (lines 232-256): try each
provider in order; return on success; re-raise SttUnclearAudioError
immediately; on SttTimeoutError / SttNetworkError / SttError record
last_error and continue; after the loop raise the aggregate error. The
first component lists the providers actually invoked, in order. -/
def sttProviderLoop :
    Option SttErrorVal → List SttProviderRun →
      List SttProvider × Except SttErrorVal String
  | lastError, [] => ([], .error (.allFailed lastError))
  | _, p :: rest =>
    match p.outcome.run with
    | .ok t => ([p.provider], .ok t)
    | .error e =>
      if e.isUnclear then ([p.provider], .error e)
      else
        let r := sttProviderLoop (some e) rest
        (p.provider :: r.1, r.2)

/-- SpeechToText.transcribe (speech_to_text.py lines 201-256): guard on
an empty provider list, then run the fallback loop over the ordered
providers. Wall-clock duration is not modelled; the invoked-provider list
is returned alongside the result. -/
def SpeechToText.transcribe (providers : List SttProviderRun) :
    List SttProvider × Except SttErrorVal String :=
  if providers.isEmpty then
    ([], .error (.sttError
      "No STT providers available. Install SpeechRecognition or provide OpenAI API key."))
  else
    sttProviderLoop none providers

/-- C2: an SttUnclearAudioError from the first provider tried propagates
immediately to the caller; the invoked-provider list is exactly the first
provider, so no subsequent provider in the chain is invoked. -/
theorem transcribe_unclear_audio_no_fallback
    (p : SttProviderRun) (rest : List SttProviderRun) (msg : String)
    (h : p.outcome = .unclearAudio msg) :
    SpeechToText.transcribe (p :: rest)
      = ([p.provider], .error (.sttUnclearAudio msg)) := by
  simp [SpeechToText.transcribe, sttProviderLoop, h, SttOutcome.run,
    SttErrorVal.isUnclear]

/-- Witness for C2: a two-provider chain whose first member reports
unclear audio stops after that first provider. -/
theorem transcribe_unclear_audio_no_fallback_witness :
    SpeechToText.transcribe
      [⟨.webSpeechApi, .unclearAudio "Could not understand audio"⟩,
       ⟨.whisperApi, .success "hello"⟩]
      = ([.webSpeechApi],
         .error (.sttUnclearAudio "Could not understand audio")) :=
  transcribe_unclear_audio_no_fallback
    ⟨.webSpeechApi, .unclearAudio "Could not understand audio"⟩
    [⟨.whisperApi, .success "hello"⟩] "Could not understand audio" rfl

theorem sttOutcome_transient_run (o : SttOutcome)
    (h : o.isTransientFailure = true) :
    ∃ e, o.run = .error e ∧ e.isUnclear = false := by
  cases o with
  | timeout m => exact ⟨.sttTimeout m, rfl, rfl⟩
  | network m => exact ⟨.sttNetwork m, rfl, rfl⟩
  | success t => simp [SttOutcome.isTransientFailure] at h
  | unclearAudio m => simp [SttOutcome.isTransientFailure] at h
  | otherError m => simp [SttOutcome.isTransientFailure] at h

theorem sttProviderLoop_all_fail (qs : List SttProviderRun) :
    ∀ (q : SttProviderRun) (le : Option SttErrorVal),
      (∀ p ∈ qs ++ [q], p.outcome.isTransientFailure = true) →
      sttProviderLoop le (qs ++ [q])
        = ((qs ++ [q]).map SttProviderRun.provider,
           .error (.allFailed q.errorOf)) := by
  induction qs with
  | nil =>
    intro q le hall
    have hq := hall q (by simp)
    obtain ⟨e, he, hu⟩ := sttOutcome_transient_run q.outcome hq
    simp [sttProviderLoop, he, hu, SttProviderRun.errorOf]
  | cons p ps ih =>
    intro q le hall
    have hp := hall p (by simp)
    obtain ⟨e, he, hu⟩ := sttOutcome_transient_run p.outcome hp
    have hr := ih q (some e) (fun r hr1 => hall r (by simp [hr1]))
    simp [sttProviderLoop, he, hu, hr]

/-- The TTS provider enum (src/voice/text_to_speech.py, TtsProvider). -/
inductive TtsProvider where
  | system
  | elevenlabs
deriving DecidableEq, Repr

/-- Outcome of the underlying provider helper call inside
TextToSpeech.synthesize: synthesize_with_elevenlabs and
synthesize_with_system_tts either return audio bytes or raise
TtsNetworkError, TtsApiError or a plain TtsError. -/
inductive TtsOutcome where
  | success (audio : List Nat)
  | network (msg : String)
  | api (msg : String)
  | otherError (msg : String)
deriving DecidableEq, Repr

/-- Error values TextToSpeech.synthesize can raise; allFailed models the
final TtsError whose message embeds the kept last_error
(text_to_speech.py lines 373-377). -/
inductive TtsErrorVal where
  | ttsError (msg : String)
  | ttsNetwork (msg : String)
  | ttsApi (msg : String)
  | allFailed (last : Option TtsErrorVal)

/-- The result of one TTS provider helper call, as the try block sees
it. -/
def TtsOutcome.run : TtsOutcome → Except TtsErrorVal (List Nat)
  | .success a => .ok a
  | .network m => .error (.ttsNetwork m)
  | .api m => .error (.ttsApi m)
  | .otherError m => .error (.ttsError m)

/-- Whether the outcome is the transient (network) failure the spec
names for the TTS chain. -/
def TtsOutcome.isTransientFailure : TtsOutcome → Bool
  | .network _ => true
  | _ => false

/-- One TTS provider in the ordered chain, paired with the outcome its
helper call would produce on the given text. -/
structure TtsProviderRun where
  provider : TtsProvider
  outcome : TtsOutcome
deriving DecidableEq, Repr

/-- The error a TTS provider run contributes as last_error. -/
def TtsProviderRun.errorOf (p : TtsProviderRun) : Option TtsErrorVal :=
  match p.outcome.run with
  | .ok _ => none
  | .error e => some e

/-- The for-loop of TextToSpeech.synthesize (lines 344-377): try each
provider in order; return on success; every TtsNetworkError / TtsApiError
/ TtsError is recorded as last_error and the loop continues; after the
loop the aggregate error is raised. -/
def ttsProviderLoop :
    Option TtsErrorVal → List TtsProviderRun →
      List TtsProvider × Except TtsErrorVal (List Nat)
  | lastError, [] => ([], .error (.allFailed lastError))
  | _, p :: rest =>
    match p.outcome.run with
    | .ok a => ([p.provider], .ok a)
    | .error e =>
      let r := ttsProviderLoop (some e) rest
      (p.provider :: r.1, r.2)

/-- Whitespace characters Python strips from a str, restricted to the
ASCII ones. -/
def isPyWhitespace (c : Char) : Bool :=
  c = ' ' || c = '\t' || c = '\n' || c = '\r' || c = '\x0b' || c = '\x0c'

/-- Python str.strip(): remove leading and trailing whitespace. Text is
modelled as a list of characters. -/
def pyStrip (s : List Char) : List Char :=
  ((s.dropWhile isPyWhitespace).reverse.dropWhile isPyWhitespace).reverse

/-- TextToSpeech.synthesize (text_to_speech.py lines 313-377): guard on
an empty provider list, then reject empty or whitespace-only text with
TtsError("Empty text provided") before the provider loop, then run the
fallback loop over the ordered providers. The invoked-provider list is
returned alongside the result. -/
def TextToSpeech.synthesize (available_providers : List TtsProviderRun)
    (text : List Char) :
    List TtsProvider × Except TtsErrorVal (List Nat) :=
  if available_providers.isEmpty then
    ([], .error (.ttsError
      "No TTS providers available. Install pyttsx3 or provide ElevenLabs API key."))
  else if text.isEmpty || (pyStrip text).isEmpty then
    ([], .error (.ttsError "Empty text provided"))
  else
    ttsProviderLoop none available_providers

theorem ttsOutcome_transient_run (o : TtsOutcome)
    (h : o.isTransientFailure = true) :
    ∃ e, o.run = .error e := by
  cases o with
  | network m => exact ⟨.ttsNetwork m, rfl⟩
  | success a => simp [TtsOutcome.isTransientFailure] at h
  | api m => simp [TtsOutcome.isTransientFailure] at h
  | otherError m => simp [TtsOutcome.isTransientFailure] at h

theorem ttsProviderLoop_all_fail (qs : List TtsProviderRun) :
    ∀ (q : TtsProviderRun) (le : Option TtsErrorVal),
      (∀ p ∈ qs ++ [q], p.outcome.isTransientFailure = true) →
      ttsProviderLoop le (qs ++ [q])
        = ((qs ++ [q]).map TtsProviderRun.provider,
           .error (.allFailed q.errorOf)) := by
  induction qs with
  | nil =>
    intro q le hall
    have hq := hall q (by simp)
    obtain ⟨e, he⟩ := ttsOutcome_transient_run q.outcome hq
    simp [ttsProviderLoop, he, TtsProviderRun.errorOf]
  | cons p ps ih =>
    intro q le hall
    have hp := hall p (by simp)
    obtain ⟨e, he⟩ := ttsOutcome_transient_run p.outcome hp
    have hr := ih q (some e) (fun r hr1 => hall r (by simp [hr1]))
    simp [ttsProviderLoop, he, hr]

theorem pyStrip_text_ne_nil (text : List Char)
    (h : (pyStrip text).isEmpty = false) : text.isEmpty = false := by
  cases text with
  | nil => simp [pyStrip] at h
  | cons c cs => rfl

/-- C3: in a two-provider chain where the first provider fails with a
transient (network or timeout) error and the second succeeds, transcribe
and synthesize return the second provider result and the first provider
is attempted exactly once, never after the success; and when every
provider in the chain fails transiently, both calls raise the aggregate
failure carrying the last provider error. -/
theorem provider_fallback_transient_chain :
    (∀ (a b : SttProviderRun) (t : String),
        a.outcome.isTransientFailure = true → b.outcome = .success t →
        SpeechToText.transcribe [a, b]
          = ([a.provider, b.provider], .ok t)) ∧
    (∀ (qs : List SttProviderRun) (q : SttProviderRun),
        (∀ p ∈ qs ++ [q], p.outcome.isTransientFailure = true) →
        SpeechToText.transcribe (qs ++ [q])
          = ((qs ++ [q]).map SttProviderRun.provider,
             .error (.allFailed q.errorOf))) ∧
    (∀ (a b : TtsProviderRun) (audio : List Nat) (text : List Char),
        a.outcome.isTransientFailure = true → b.outcome = .success audio →
        (pyStrip text).isEmpty = false →
        TextToSpeech.synthesize [a, b] text
          = ([a.provider, b.provider], .ok audio)) ∧
    (∀ (qs : List TtsProviderRun) (q : TtsProviderRun) (text : List Char),
        (∀ p ∈ qs ++ [q], p.outcome.isTransientFailure = true) →
        (pyStrip text).isEmpty = false →
        TextToSpeech.synthesize (qs ++ [q]) text
          = ((qs ++ [q]).map TtsProviderRun.provider,
             .error (.allFailed q.errorOf))) := by
  refine ⟨?_, ?_, ?_, ?_⟩
  · intro a b t ha hb
    obtain ⟨e, he, hu⟩ := sttOutcome_transient_run a.outcome ha
    have hbr : b.outcome.run = Except.ok t := by rw [hb]; rfl
    simp [SpeechToText.transcribe, sttProviderLoop, he, hu, hbr]
  · intro qs q hall
    have h := sttProviderLoop_all_fail qs q none hall
    have hne : (qs ++ [q]).isEmpty = false := by
      cases qs <;> rfl
    simp [SpeechToText.transcribe, hne, h]
  · intro a b audio text ha hb hs
    obtain ⟨e, he⟩ := ttsOutcome_transient_run a.outcome ha
    have hbr : b.outcome.run = Except.ok audio := by rw [hb]; rfl
    have ht := pyStrip_text_ne_nil text hs
    simp [TextToSpeech.synthesize, ttsProviderLoop, he, hbr, ht, hs]
  · intro qs q text hall hs
    have h := ttsProviderLoop_all_fail qs q none hall
    have hne : (qs ++ [q]).isEmpty = false := by
      cases qs <;> rfl
    have ht := pyStrip_text_ne_nil text hs
    simp [TextToSpeech.synthesize, hne, ht, hs, h]

/-- Witness for C3 at concrete two-provider chains and a concrete
all-failing chain. -/
theorem provider_fallback_transient_chain_witness :
    (SpeechToText.transcribe
        [⟨.webSpeechApi, .network "down"⟩, ⟨.whisperApi, .success "ok"⟩]
      = ([.webSpeechApi, .whisperApi], .ok "ok")) ∧
    (SpeechToText.transcribe
        [⟨.webSpeechApi, .network "down"⟩, ⟨.whisperApi, .timeout "slow"⟩]
      = ([.webSpeechApi, .whisperApi],
         .error (.allFailed (some (.sttTimeout "slow"))))) ∧
    (TextToSpeech.synthesize
        [⟨.elevenlabs, .network "down"⟩, ⟨.system, .success [1, 2]⟩]
        [Char.ofNat 104, Char.ofNat 105]
      = ([.elevenlabs, .system], .ok [1, 2])) ∧
    (TextToSpeech.synthesize
        [⟨.elevenlabs, .network "down"⟩, ⟨.system, .network "also down"⟩]
        [Char.ofNat 104, Char.ofNat 105]
      = ([.elevenlabs, .system],
         .error (.allFailed (some (.ttsNetwork "also down"))))) := by
  refine ⟨?_, ?_, ?_, ?_⟩
  · exact provider_fallback_transient_chain.1
      ⟨.webSpeechApi, .network "down"⟩ ⟨.whisperApi, .success "ok"⟩ "ok" rfl rfl
  · exact provider_fallback_transient_chain.2.1
      [⟨.webSpeechApi, .network "down"⟩] ⟨.whisperApi, .timeout "slow"⟩
      (by decide)
  · exact provider_fallback_transient_chain.2.2.1
      ⟨.elevenlabs, .network "down"⟩ ⟨.system, .success [1, 2]⟩ [1, 2]
      [Char.ofNat 104, Char.ofNat 105] rfl rfl (by decide)
  · exact provider_fallback_transient_chain.2.2.2
      [⟨.elevenlabs, .network "down"⟩] ⟨.system, .network "also down"⟩
      [Char.ofNat 104, Char.ofNat 105] (by decide) (by decide)

/-- C10: with a nonempty provider chain, synthesize raises
TtsError("Empty text provided") for every text whose characters are all
whitespace (the empty text included), and the provider chain is never
invoked: the invoked-provider list is empty. -/
theorem synthesize_whitespace_rejected
    (providers : List TtsProviderRun) (text : List Char)
    (hp : providers.isEmpty = false)
    (hw : ∀ c ∈ text, isPyWhitespace c = true) :
    TextToSpeech.synthesize providers text
      = ([], .error (.ttsError "Empty text provided")) := by
  have hdrop : text.dropWhile isPyWhitespace = [] :=
    List.dropWhile_eq_nil_iff.mpr hw
  have hstrip : pyStrip text = [] := by
    simp [pyStrip, hdrop]
  simp [TextToSpeech.synthesize, hp, hstrip]

/-- Witness for C10 on a space-and-tab text with one available
provider. -/
theorem synthesize_whitespace_rejected_witness :
    TextToSpeech.synthesize [⟨.system, .success [1]⟩] [' ', '\t']
      = ([], .error (.ttsError "Empty text provided")) :=
  synthesize_whitespace_rejected [⟨.system, .success [1]⟩] [' ', '\t']
    rfl (by decide)

/-- AudioPlayer playback flags (src/audio/playback.py, class AudioPlayer);
the callback and stream fields hold callables and device handles that no
verified operation reads. -/
structure AudioPlayer where
  is_playing : Bool := false
  should_stop : Bool := false
deriving DecidableEq, Repr

/-- AudioPlayer.stop (playback.py lines 153-163): return immediately when
not playing, otherwise set the cooperative stop flag (the subsequent
bounded thread join is concurrency, not modelled). -/
def AudioPlayer.stop (p : AudioPlayer) : AudioPlayer :=
  if !p.is_playing then p else { p with should_stop := true }

/-- AudioPlayer._detect_format (playback.py lines 194-210) on the magic
bytes of the data: leading RIFF (0x52 0x49 0x46 0x46) means wav, leading
ID3 (0x49 0x44 0x33) or 0xFF 0xFB means mp3, everything else defaults to
wav. Bytes are naturals. -/
def AudioPlayer.detect_format (audio_data : List Nat) : String :=
  if [0x52, 0x49, 0x46, 0x46].isPrefixOf audio_data then "wav"
  else if [0x49, 0x44, 0x33].isPrefixOf audio_data
      || [0xff, 0xfb].isPrefixOf audio_data then "mp3"
  else "wav"

/-- C6: byte sequences beginning with RIFF classify as wav; byte
sequences beginning with ID3 or with 0xFF 0xFB classify as mp3; every
other byte sequence, the empty one included, defaults to wav. -/
theorem detect_format_classification (audio_data : List Nat) :
    ([0x52, 0x49, 0x46, 0x46].isPrefixOf audio_data = true →
      AudioPlayer.detect_format audio_data = "wav") ∧
    ([0x49, 0x44, 0x33].isPrefixOf audio_data = true ∨
        [0xff, 0xfb].isPrefixOf audio_data = true →
      AudioPlayer.detect_format audio_data = "mp3") ∧
    ([0x52, 0x49, 0x46, 0x46].isPrefixOf audio_data = false →
      [0x49, 0x44, 0x33].isPrefixOf audio_data = false →
      [0xff, 0xfb].isPrefixOf audio_data = false →
      AudioPlayer.detect_format audio_data = "wav") ∧
    (audio_data = [] → AudioPlayer.detect_format audio_data = "wav") := by
  refine ⟨?_, ?_, ?_, ?_⟩
  · intro h
    simp [AudioPlayer.detect_format, h]
  · intro h
    have hriff : [0x52, 0x49, 0x46, 0x46].isPrefixOf audio_data = false := by
      rcases h with h1 | h1
      · rw [List.isPrefixOf_iff_prefix] at h1
        obtain ⟨tl, rfl⟩ := h1
        rfl
      · rw [List.isPrefixOf_iff_prefix] at h1
        obtain ⟨tl, rfl⟩ := h1
        rfl
    rcases h with h1 | h1 <;> simp [AudioPlayer.detect_format, hriff, h1]
  · intro h1 h2 h3
    simp [AudioPlayer.detect_format, h1, h2, h3]
  · intro h
    subst h
    rfl

/-- Witness for C6 on concrete byte sequences: a RIFF header, an ID3
header, an 0xFF 0xFB frame, an unrecognized sequence and the empty
sequence. -/
theorem detect_format_classification_witness :
    AudioPlayer.detect_format [0x52, 0x49, 0x46, 0x46, 0x00] = "wav" ∧
    AudioPlayer.detect_format [0x49, 0x44, 0x33, 0x04] = "mp3" ∧
    AudioPlayer.detect_format [0xff, 0xfb, 0x90] = "mp3" ∧
    AudioPlayer.detect_format [0x00, 0x01] = "wav" ∧
    AudioPlayer.detect_format [] = "wav" :=
  ⟨(detect_format_classification [0x52, 0x49, 0x46, 0x46, 0x00]).1 (by decide),
   (detect_format_classification [0x49, 0x44, 0x33, 0x04]).2.1
     (Or.inl (by decide)),
   (detect_format_classification [0xff, 0xfb, 0x90]).2.1 (Or.inr (by decide)),
   (detect_format_classification [0x00, 0x01]).2.2.1 (by decide) (by decide)
     (by decide),
   (detect_format_classification []).2.2.2 rfl⟩

/-- One queued playback item (audio_data, audio_format, timestamp), as
stored by PlaybackController.queue_audio (playback.py lines 398-409). -/
structure QueueItem where
  audio_data : List Nat
  audio_format : String
  timestamp : Int
deriving DecidableEq, Repr

/-- PlaybackController state (playback.py, class PlaybackController);
the worker thread handle is concurrency and not modelled. -/
structure PlaybackController where
  player : AudioPlayer
  queue : List QueueItem := []
  is_active : Bool := false
  should_stop : Bool := false
deriving DecidableEq, Repr

/-- Python int() applied to a rational: truncation toward zero. -/
def pyInt (q : ℚ) : Int := q.num / (q.den : Int)

/-- PlaybackController.interrupt (playback.py lines 411-428): read the
clock, stop the current playback via the player, clear the queue, and
return int((time.time() - start_time) * 1000) as the interrupt latency.
The two clock readings are explicit inputs. -/
def PlaybackController.interrupt (c : PlaybackController)
    (start_time now : ℚ) : PlaybackController × Int :=
  ({ c with player := c.player.stop, queue := [] },
   pyInt ((now - start_time) * 1000))

/-- C7: for every queue state and player state, one interrupt call stops
the current playback (the player receives the stop signal when it was
playing), clears the entire queue so the queue length is 0 immediately
after, and returns the elapsed wall-clock milliseconds between the two
clock readings as the latency. -/
theorem playback_interrupt_clears_queue (c : PlaybackController)
    (start_time now : ℚ) :
    (c.interrupt start_time now).1.queue.length = 0 ∧
    (c.interrupt start_time now).1.player = c.player.stop ∧
    (c.player.is_playing = true →
      (c.interrupt start_time now).1.player.should_stop = true) ∧
    (c.interrupt start_time now).2 = pyInt ((now - start_time) * 1000) := by
  refine ⟨rfl, rfl, ?_, rfl⟩
  intro h
  simp [PlaybackController.interrupt, AudioPlayer.stop, h]

/-- Witness for C7 on a controller with two queued items and a playing
player. -/
theorem playback_interrupt_clears_queue_witness :
    ((PlaybackController.mk { is_playing := true }
        [⟨[1], "wav", 0⟩, ⟨[2], "mp3", 5⟩] true false).interrupt 0 (1 / 2)).1.queue.length
        = 0 ∧
    ((PlaybackController.mk { is_playing := true }
        [⟨[1], "wav", 0⟩, ⟨[2], "mp3", 5⟩] true false).interrupt 0 (1 / 2)).1.player.should_stop
        = true ∧
    ((PlaybackController.mk { is_playing := true }
        [⟨[1], "wav", 0⟩, ⟨[2], "mp3", 5⟩] true false).interrupt 0 (1 / 2)).2
        = pyInt ((1 / 2 - 0) * 1000) :=
  ⟨(playback_interrupt_clears_queue _ 0 (1 / 2)).1,
   (playback_interrupt_clears_queue (PlaybackController.mk { is_playing := true }
      [⟨[1], "wav", 0⟩, ⟨[2], "mp3", 5⟩] true false) 0 (1 / 2)).2.2.1 rfl,
   (playback_interrupt_clears_queue _ 0 (1 / 2)).2.2.2⟩

/-- AudioCapture state (src/audio/capture.py, class AudioCapture): the
recording flag, the chunk buffer in arrival order (samples as rationals)
and the presence of an open input stream. -/
structure AudioCapture where
  is_recording : Bool := false
  audio_buffer : List (List ℚ) := []
  stream : Option Unit := none
deriving DecidableEq, Repr

/-- AudioCapture.start_recording (capture.py lines 52-71): return when
already recording, otherwise reset the buffer, set the flag and open the
stream. -/
def AudioCapture.start_recording (c : AudioCapture) : AudioCapture :=
  if c.is_recording then c
  else { c with audio_buffer := [], is_recording := true, stream := some () }

/-- AudioCapture._audio_callback (capture.py lines 104-121): append a
copy of the incoming chunk while recording. -/
def AudioCapture.audio_callback (c : AudioCapture) (indata : List ℚ) :
    AudioCapture :=
  if c.is_recording then { c with audio_buffer := c.audio_buffer ++ [indata] }
  else c

/-- AudioCapture.stop_recording (capture.py lines 73-102): return None
without touching anything when not recording; otherwise clear the flag,
close the stream, and return None when no chunks were captured or the
concatenation of all chunks in arrival order otherwise. -/
def AudioCapture.stop_recording (c : AudioCapture) :
    AudioCapture × Option (List ℚ) :=
  if !c.is_recording then (c, none)
  else
    let c1 : AudioCapture :=
      { c with is_recording := false, stream := none }
    if c1.audio_buffer.isEmpty then (c1, none)
    else (c1, some c1.audio_buffer.flatten)

theorem stop_recording_not_recording (c : AudioCapture)
    (h : c.is_recording = false) : c.stop_recording = (c, none) := by
  simp [AudioCapture.stop_recording, h]

theorem stop_recording_clears_flag (c : AudioCapture) :
    (c.stop_recording).1.is_recording = false := by
  by_cases h : c.is_recording = true
  · by_cases hb : c.audio_buffer.isEmpty = true <;>
      simp [AudioCapture.stop_recording, h, hb]
  · simp only [Bool.not_eq_true] at h
    simp [stop_recording_not_recording c h, h]

/-- C9: stop_recording before any start_recording returns no data and
does not disturb the fresh state; a second consecutive stop_recording
always returns no data as well; and a stop while recording was active
but no chunks arrived returns no data rather than an empty buffer. -/
theorem stop_recording_no_data :
    (({} : AudioCapture).stop_recording = ({}, none)) ∧
    (∀ c : AudioCapture,
      (c.stop_recording).1.stop_recording = ((c.stop_recording).1, none)) ∧
    (∀ c : AudioCapture, c.is_recording = true → c.audio_buffer = [] →
      (c.stop_recording).2 = none) := by
  refine ⟨rfl, ?_, ?_⟩
  · intro c
    exact stop_recording_not_recording _ (stop_recording_clears_flag c)
  · intro c h hb
    simp [AudioCapture.stop_recording, h, hb]

/-- Witness for C9: a capture that was recording with an empty buffer
returns no data. -/
theorem stop_recording_no_data_witness :
    ((AudioCapture.mk true [] (some ())).stop_recording).2 = none :=
  stop_recording_no_data.2.2 (AudioCapture.mk true [] (some ())) rfl rfl

/-- VoiceOutputManager state (src/voice/output_manager.py): the active
flag, the playback controller and the session; configuration, TTS engine
and hooks are not read by interrupt. -/
structure VoiceOutputManager where
  is_active : Bool := false
  playback_controller : PlaybackController
  session : VoiceSession
deriving DecidableEq, Repr

/-- VoiceOutputManager.interrupt (output_manager.py lines 154-169):
return when inactive; otherwise delegate to
playback_controller.interrupt, then call
session.statistics.increment_interruptions(latency_ms) with one
argument. The pair returned is the state at the end of execution and the
propagated exception, if any. -/
def VoiceOutputManager.interrupt (m : VoiceOutputManager)
    (start_time now : ℚ) : VoiceOutputManager × Option PyError :=
  if !m.is_active then (m, none)
  else
    let pr := m.playback_controller.interrupt start_time now
    let m1 : VoiceOutputManager := { m with playback_controller := pr.1 }
    match callIncrementInterruptions m1.session.statistics [pr.2] with
    | .ok stats =>
      ({ m1 with session := { m1.session with statistics := stats } }, none)
    | .error e => (m1, some e)

/-- C5 (code bug): on every active manager, interrupt() delegates to the
playback controller but the statistics update raises TypeError, because
output_manager.py line 163 passes latency_ms to
Statistics.increment_interruptions, which is defined with no parameter;
the exception propagates and interruptions_count is left unchanged
instead of increasing by one. -/
theorem output_manager_interrupt_type_error
    (pc : PlaybackController) (sess : VoiceSession) (t0 t1 : ℚ) :
    ((VoiceOutputManager.mk true pc sess).interrupt t0 t1).2
      = some (.typeError
        "increment_interruptions() takes 1 positional argument but more were given") ∧
    ((VoiceOutputManager.mk true pc sess).interrupt t0 t1).1.session.statistics.interruptions_count
      = sess.statistics.interruptions_count := by
  constructor <;>
    simp [VoiceOutputManager.interrupt, callIncrementInterruptions,
      incrementInterruptionsParamCount]
